import Mathlib

/-!
Verification of the MarketScholar formula layer.

This file gives a shallow embedding, in Lean 4, of the pure computational
core of the repository: the narrative decay engine (decay_engine.py), the
patent formula calculator (daily_calculations.py), the scraper composite
and decay computation (marketscholar_scraper.py) and the analyst call
evaluation (analyst_tracker.py).  Python floats are modelled by exact
rationals (and by real numbers where a logarithm is taken); the Python
built-in `round(x, k)` (round half to even) is modelled by `pyRound`;
database rows are modelled by the lists of values the code reads from
them.  Theorems then settle the spec claims against these definitions.
-/

/-- Model of the Python built-in `round` to an integer: round half to even
(bankers rounding), the semantics of `round(x)` on floats. -/
def pyRound {α : Type} [LinearOrderedField α] [FloorRing α] (x : α) : ℤ :=
  if Int.fract x < 1/2 then ⌊x⌋
  else if 1/2 < Int.fract x then ⌊x⌋ + 1
  else if Even ⌊x⌋ then ⌊x⌋ else ⌊x⌋ + 1

/-- Model of the Python built-in `round(x, k)`: round to `k` decimal places,
ties to even. -/
def pyRoundTo {α : Type} [LinearOrderedField α] [FloorRing α] (k : ℕ) (x : α) : α :=
  (pyRound (x * (10:α)^k) : α) / (10:α)^k

theorem fract_eq_self_sub_floor {α : Type} [LinearOrderedField α] [FloorRing α] (x : α) :
    Int.fract x = x - ⌊x⌋ := rfl

theorem pyRound_mem {α : Type} [LinearOrderedField α] [FloorRing α] (x : α) :
    pyRound x = ⌊x⌋ ∨ pyRound x = ⌊x⌋ + 1 := by
  unfold pyRound
  split
  · exact Or.inl rfl
  split
  · exact Or.inr rfl
  split
  · exact Or.inl rfl
  · exact Or.inr rfl

theorem floor_le_pyRound {α : Type} [LinearOrderedField α] [FloorRing α] (x : α) :
    ⌊x⌋ ≤ pyRound x := by
  rcases pyRound_mem x with h | h <;> omega

theorem pyRound_le_ceil {α : Type} [LinearOrderedField α] [FloorRing α] (x : α) :
    pyRound x ≤ ⌈x⌉ := by
  rcases pyRound_mem x with h | h
  · rw [h]; exact Int.floor_le_ceil x
  · rw [h]
    have hf : Int.fract x ≠ 0 := by
      intro h0
      have hz : pyRound x = ⌊x⌋ := by unfold pyRound; rw [h0]; norm_num
      omega
    have h1 : 0 < Int.fract x := lt_of_le_of_ne (Int.fract_nonneg x) (Ne.symm hf)
    rw [fract_eq_self_sub_floor] at h1
    have hlt : (⌊x⌋ : α) < (⌈x⌉ : α) := by
      have := Int.le_ceil x
      linarith
    have : ⌊x⌋ < ⌈x⌉ := by exact_mod_cast hlt
    omega

theorem pyRound_nonneg {α : Type} [LinearOrderedField α] [FloorRing α] {x : α} (hx : 0 ≤ x) :
    0 ≤ pyRound x := by
  have h1 := floor_le_pyRound x
  have h0 : (0:ℤ) ≤ ⌊x⌋ := Int.floor_nonneg.mpr hx
  omega

theorem pyRound_le_of_le_int {α : Type} [LinearOrderedField α] [FloorRing α] {x : α} {m : ℤ}
    (h : x ≤ m) : pyRound x ≤ m := by
  have h1 := pyRound_le_ceil x
  have h2 : ⌈x⌉ ≤ m := Int.ceil_le.mpr (by exact_mod_cast h)
  omega

theorem int_le_pyRound_of_le {α : Type} [LinearOrderedField α] [FloorRing α] {x : α} {m : ℤ}
    (h : (m:α) ≤ x) : m ≤ pyRound x := by
  have h1 := floor_le_pyRound x
  have h2 : m ≤ ⌊x⌋ := Int.le_floor.mpr h
  omega

theorem pyRoundTo_nonneg {α : Type} [LinearOrderedField α] [FloorRing α] {k : ℕ} {x : α}
    (hx : 0 ≤ x) : 0 ≤ pyRoundTo k x := by
  unfold pyRoundTo
  have h1 : (0:ℤ) ≤ pyRound (x * (10:α)^k) := pyRound_nonneg (by positivity)
  have h2 : (0:α) ≤ (pyRound (x * (10:α)^k) : α) := by exact_mod_cast h1
  positivity

theorem pyRoundTo_le_of_le {α : Type} [LinearOrderedField α] [FloorRing α] {k : ℕ} {x : α}
    {m : ℤ} (h : x ≤ m) : pyRoundTo k x ≤ m := by
  unfold pyRoundTo
  have h1 : x * (10:α)^k ≤ (m * 10^k : ℤ) := by
    push_cast
    have hp : (0:α) < (10:α)^k := by positivity
    nlinarith
  have h2 : pyRound (x * (10:α)^k) ≤ m * 10^k := pyRound_le_of_le_int h1
  rw [div_le_iff₀ (by positivity : (0:α) < (10:α)^k)]
  calc (pyRound (x * (10:α)^k) : α) ≤ ((m * 10^k : ℤ) : α) := by exact_mod_cast h2
    _ = (m:α) * (10:α)^k := by push_cast; ring

theorem le_pyRoundTo_of_le {α : Type} [LinearOrderedField α] [FloorRing α] {k : ℕ} {x : α}
    {m : ℤ} (h : (m:α) ≤ x) : (m:α) ≤ pyRoundTo k x := by
  unfold pyRoundTo
  have h1 : ((m * 10^k : ℤ) : α) ≤ x * (10:α)^k := by
    push_cast
    have hp : (0:α) < (10:α)^k := by positivity
    nlinarith
  have h2 : m * 10^k ≤ pyRound (x * (10:α)^k) := int_le_pyRound_of_le h1
  rw [le_div_iff₀ (by positivity : (0:α) < (10:α)^k)]
  calc (m:α) * (10:α)^k = ((m * 10^k : ℤ) : α) := by push_cast; ring
    _ ≤ (pyRound (x * (10:α)^k) : α) := by exact_mod_cast h2

/-- Model of the Python string method `lower` on one character: ASCII
lowercasing, which is all the repository texts need. -/
def lowerChar (c : Char) : Char :=
  if 65 ≤ c.toNat ∧ c.toNat ≤ 90 then Char.ofNat (c.toNat + 32) else c

/-- Model of the Python string method `lower`, as a list of characters. -/
def lowerStr (s : String) : List Char := s.toList.map lowerChar

/-- Model of the Python substring test `needle in hay`. -/
def containsSub (needle : List Char) : List Char → Bool
  | [] => needle.isEmpty
  | c :: t => needle.isPrefixOf (c :: t) || containsSub needle t

/-- Insert into an ascending list, keeping it ascending. -/
def insertAsc (x : ℚ) : List ℚ → List ℚ
  | [] => [x]
  | y :: t => if x ≤ y then x :: y :: t else y :: insertAsc x t

/-- Model of the Python list method `sort` for numbers: ascending insertion
sort. -/
def sortAsc : List ℚ → List ℚ
  | [] => []
  | x :: t => insertAsc x (sortAsc t)

/-!
## decay_engine.py — NarrativeDecayEngine

The class keeps `s0` (the initial sentiment, set at construction) and
`sentiment_history`, a list whose first element is `s0` and to which
`add_datapoint` appends one value per day.  The price history and the dates
are carried along by the Python class but not read by the functions the
claims are about, except through the Pearson correlation, which is computed
by numpy over floats and is therefore passed to `classify_status` as an
input below.
-/

/-- State of decay_engine.NarrativeDecayEngine that the sentiment formulas
read: the initial sentiment `s0` and the datapoints added after genesis. -/
structure NarrativeDecayEngine where
  s0 : ℚ
  rest : List ℚ

namespace NarrativeDecayEngine

/-- The sentiment_history list of the Python object: initial sentiment
followed by the added datapoints. -/
def sentiment_history (e : NarrativeDecayEngine) : List ℚ := e.s0 :: e.rest

/-- The value `self.sentiment_history[-1]` the methods read. -/
def current_sentiment (e : NarrativeDecayEngine) : ℚ := e.sentiment_history.getLastD 0

/-- The value `len(self.sentiment_history) - 1` the methods call days_elapsed. -/
def days_elapsed (e : NarrativeDecayEngine) : ℕ := e.sentiment_history.length - 1

/-- decay_engine.NarrativeDecayEngine.calculate_decay_rate: returns 0.0 for a
history of fewer than 2 points, else round((s0 - current) / max(days, 1), 4). -/
def calculate_decay_rate (e : NarrativeDecayEngine) : ℚ :=
  if e.sentiment_history.length < 2 then 0
  else pyRoundTo 4 ((e.s0 - e.current_sentiment) / ((max e.days_elapsed 1 : ℕ) : ℚ))

/-- decay_engine.NarrativeDecayEngine.calculate_half_life: None for a short
history or non-positive sentiments; else with lam = -ln(current/s0)/n, None
when lam is not positive and round(ln 2 / lam, 2) otherwise.  The Python
floats are modelled by real numbers, so the ValueError/ZeroDivisionError
handler has nothing to catch: the logarithm argument is positive and n is
at least 1 in the branch that reaches it. -/
noncomputable def calculate_half_life (e : NarrativeDecayEngine) : Option ℝ :=
  if e.sentiment_history.length < 2 then none
  else if e.current_sentiment ≤ 0 ∨ e.s0 ≤ 0 then none
  else if -Real.log ((e.current_sentiment : ℝ) / (e.s0 : ℝ)) / (e.days_elapsed : ℝ) ≤ 0 then none
  else some (pyRoundTo 2 (Real.log 2 /
    (-Real.log ((e.current_sentiment : ℝ) / (e.s0 : ℝ)) / (e.days_elapsed : ℝ))))

/-- Status labels returned by classify_status. -/
inductive Status where
  | ACTIVE | EXHAUSTED | FAILED | VALIDATED
deriving DecidableEq, Repr

/-- decay_engine.NarrativeDecayEngine.classify_status.  The correlation input
stands for the value of self.calculate_price_correlation(), a Pearson
coefficient computed by numpy over floats (None below 3 points); the method
body only compares it against thresholds, which is what is embedded here.
The two Python guards of the form "correlation is not None and ..." are the
match on the option below. -/
def classify_status (current_sentiment : ℚ) (days_elapsed : ℕ)
    (correlation : Option ℚ) : Status :=
  if current_sentiment < 20 then .EXHAUSTED
  else
    match correlation with
    | some c =>
      if c < -(1/2) then .FAILED
      else if 7/10 < c ∧ 70 < current_sentiment ∧ 30 < days_elapsed then .VALIDATED
      else .ACTIVE
    | none => .ACTIVE

end NarrativeDecayEngine

/-!
## daily_calculations.py — PatentFormulaCalculator

The analyst-call formulas read, for one analyst, the rows of analyst_calls
with outcome_status EVALUATED; each row contributes only its boolean
directional_correct flag, so the evaluated calls are modelled by a list of
booleans.  The hype discipline formula reads the article text only through
two counts (numeric anchors from the regex patterns, hype words from the
fixed word list); the counting itself is Python regex machinery, so the
text is abstracted to its two counts, with `none` standing for the
empty or missing text the code rejects first.
-/

namespace PatentFormulaCalculator

/-- daily_calculations.PatentFormulaCalculator.calculate_analyst_accuracy:
AAR = round((correct / total evaluated) * 100, 2), neutral 50.0 when there
is no evaluated call. -/
def calculate_analyst_accuracy (calls : List Bool) : ℚ :=
  if calls = [] then 50
  else pyRoundTo 2 (((calls.count true : ℚ) / (calls.length : ℚ)) * 100)

/-- daily_calculations.PatentFormulaCalculator.calculate_reliability_bayesian:
ARB = round(((alpha0 + successes) / (alpha0 + beta0 + successes + failures))
* 100, 2) with alpha0 = beta0 = 2, neutral 50.0 when there is no evaluated
call. -/
def calculate_reliability_bayesian (calls : List Bool) : ℚ :=
  if calls = [] then 50
  else
    let alpha_0 : ℚ := 2
    let beta_0 : ℚ := 2
    let successes : ℚ := (calls.count true : ℕ)
    let failures : ℚ := ((calls.length : ℚ) - ((calls.count true : ℕ) : ℚ))
    pyRoundTo 2 (((alpha_0 + successes) / (alpha_0 + beta_0 + successes + failures)) * 100)

/-- Scoring core of calculate_hype_discipline once the two counts are in
hand: hds = min(100, int(anchors / (hype + 1) * 20)) when anchors > 0, else
0; then +20 capped at 100 when anchors > hype * 3.  The Python
`int(ratio * 20)` truncation of the non-negative float is the natural
number division below. -/
def hype_discipline_core (numeric_anchors hype_count : ℕ) : ℕ :=
  let hds := if 0 < numeric_anchors then min 100 (20 * numeric_anchors / (hype_count + 1)) else 0
  if hype_count * 3 < numeric_anchors then min 100 (hds + 20) else hds

/-- daily_calculations.PatentFormulaCalculator.calculate_hype_discipline:
the input is the article text abstracted to its (numeric anchor, hype word)
counts, `none` for empty or missing text. -/
def calculate_hype_discipline : Option (ℕ × ℕ) → ℕ
  | none => 50
  | some (numeric_anchors, hype_count) => hype_discipline_core numeric_anchors hype_count

/-- One row of the articles table as calculate_coordination_score reads it:
title, content_summary, published_at (a timestamp in seconds) and the
author column (none when NULL). -/
structure Article where
  title : String
  content_summary : String
  published_at : ℚ
  author : Option String

/-- The relevance filter of calculate_coordination_score:
narrative_name.lower() in (title + content_summary).lower(). -/
def matchesNarrative (narrative_name : String) (a : Article) : Bool :=
  containsSub (lowerStr narrative_name) (lowerStr (a.title ++ a.content_summary))

/-- The anonymity test of calculate_coordination_score: `not a.get('author')`
holds for a NULL author and for the empty string. -/
def isAnonymous (a : Article) : Bool := a.author.getD "" = ""

/-- The timing loop of calculate_coordination_score on the sorted
timestamps: some window of 3 consecutive entries spans under 3600 seconds. -/
def three_within_hour : List ℚ → Bool
  | a :: b :: c :: t => decide (c - a < 3600) || three_within_hour (b :: c :: t)
  | _ => false

/-- The phrasing loop of calculate_coordination_score: the maximum of
sim over all unordered pairs of texts, starting from 0.  sim stands for
difflib.SequenceMatcher(None, x, y).ratio(), which is passed in as a
function since its value is what the thresholds read. -/
def max_pair_sim (sim : List Char → List Char → ℚ) : List String → ℚ
  | [] => 0
  | t :: rest => max ((rest.map (fun u => sim (lowerStr t) (lowerStr u))).foldl max 0)
      (max_pair_sim sim rest)

/-- daily_calculations.PatentFormulaCalculator.calculate_coordination_score:
0 below 2 same-window articles or below 2 narrative matches, else the sum
of the 45-point timing bonus, the 30-point phrasing bonus and the 20-point
anonymity bonus, capped at 100. -/
def calculate_coordination_score (sim : List Char → List Char → ℚ)
    (articles : List Article) (narrative_name : String) : ℕ :=
  if articles.length < 2 then 0
  else
    let relevant := articles.filter (matchesNarrative narrative_name)
    if relevant.length < 2 then 0
    else
      let timestamps := sortAsc (relevant.map Article.published_at)
      let timing_points := if three_within_hour timestamps then 45 else 0
      let texts := relevant.map (fun a => a.title ++ " " ++ a.content_summary)
      let phrasing_points := if 7/10 < max_pair_sim sim texts then 30 else 0
      let anon := (relevant.filter isAnonymous).length
      let anon_points := if (relevant.length : ℚ) * (1/2) ≤ (anon : ℚ) then 20 else 0
      min 100 (timing_points + phrasing_points + anon_points)

/-- The composite credibility score of
daily_calculations.PatentFormulaCalculator.update_analyst_scores, written
exactly as the code combines the sub-scores. -/
def acs (aar arb hds coord : ℚ) : ℚ :=
  aar * 0.25 + arb * 0.15 + hds * 0.10 + (100 - coord) * 0.05 + 50 * 0.45

end PatentFormulaCalculator

/-- The composite credibility score as the spec words it: AAR x 0.25 +
ARB x 0.15 + HDS x 0.10 + (100 - CoordinationScore) x 0.05 + 50 x 0.45,
the last term the fixed placeholder weight.  Written from the spec, to be
compared with the per-component definitions from the code. -/
def spec_composite (aar arb hds coord : ℚ) : ℚ :=
  aar * 0.25 + arb * 0.15 + hds * 0.10 + (100 - coord) * 0.05 + 50 * 0.45

/-!
## marketscholar_scraper.py

The scraper module has its own copies of the analyst formulas.  Its
update_analyst_scores builds the composite from AAR and ARB alone, and its
calculate_narrative_decay derives a half-life from a linear decay rate, a
formula different from the decay engine one.
-/

namespace Scraper

/-- Result row of Scraper.calculate_narrative_decay: the rounded linear
decay rate and the rounded half-life (none when the half-life is
undefined). -/
structure DecayResult where
  decay_rate : ℚ
  half_life : Option ℝ

/-- marketscholar_scraper calculate_narrative_decay over the ordered
sentiment snapshots: none models the empty dict returned when fewer than 2
snapshots exist or when math.log raises (argument not positive); otherwise
decay_rate = (initial - current) / days rounded to 2 places, and half_life
= round(log(0.5) / log(1 - decay_rate / initial), 2) when decay_rate > 0
and initial > 0, else None.  In the defined branch the half-life is a
positive float, so the Python truthiness test on it passes. -/
noncomputable def calculate_narrative_decay (snapshots : List ℚ) : Option DecayResult :=
  if snapshots.length < 2 then none
  else
    let initial := snapshots.headD 0
    let current := snapshots.getLastD 0
    let days : ℕ := snapshots.length - 1
    let decay_rate : ℚ := (initial - current) / (days : ℚ)
    if 0 < decay_rate ∧ 0 < initial then
      if 1 - decay_rate / initial ≤ 0 then none
      else some ⟨pyRoundTo 2 decay_rate,
        some (pyRoundTo 2 (Real.log (1/2) / Real.log ((1 - decay_rate / initial : ℚ) : ℝ)))⟩
    else some ⟨pyRoundTo 2 decay_rate, none⟩

/-- The composite credibility score of marketscholar_scraper
update_analyst_scores, written exactly as the code combines AAR and ARB
(the comment there reads: rest default to 50). -/
def acs (aar arb : ℚ) : ℚ :=
  aar * 0.30 + arb * 0.20 + 50 * 0.50

end Scraper

/-!
## analyst_tracker.py — AnalystTracker.evaluate_analyst_calls

The maturation job walks the PENDING calls older than the cutoff; for each
one it reaches (price history found and long enough) it computes the
percent price change from price-at-publish to the price 90 days later,
derives directional_correct from the stored sentiment string, and writes
outcome_status EVALUATED.
-/

namespace AnalystTracker

/-- The percent price change evaluate_analyst_calls computes:
((price_90d_later - price_at_publish) / price_at_publish) * 100. -/
def price_change_pct (price_at_publish price_90d_later : ℚ) : ℚ :=
  ((price_90d_later - price_at_publish) / price_at_publish) * 100

/-- The directional_correct decision of evaluate_analyst_calls: starts
False, set True by exactly one arm of the if/elif chain. -/
def directional_correct (sentiment : String) (change : ℚ) : Bool :=
  if sentiment = "BULLISH" ∧ 5 < change then true
  else if sentiment = "BEARISH" ∧ change < -5 then true
  else if sentiment = "NEUTRAL" ∧ |change| ≤ 5 then true
  else false

/-- The update written back for one evaluated call. -/
structure CallUpdate where
  outcome_status : String
  directional_correct : Bool

/-- Evaluation of one call the maturation job reaches: the written update
always carries outcome_status EVALUATED, with directional_correct derived
from the sentiment and the price change. -/
def evaluate_call (sentiment : String) (price_at_publish price_90d_later : ℚ) : CallUpdate :=
  { outcome_status := "EVALUATED"
    directional_correct :=
      directional_correct sentiment (price_change_pct price_at_publish price_90d_later) }

end AnalystTracker

/-!
## Claim theorems
-/

/-- C1 counterexample: the decay-rate computation does NOT return a
"no metric" sentinel for a history with fewer than 2 points — it returns
the number 0 (the Python code returns the float 0.0), and that value is
exactly what it also returns for a 2-point history whose sentiment is
flat, so a caller cannot distinguish "not computable" from "computed as
zero". -/
theorem calculate_decay_rate_no_sentinel : NarrativeDecayEngine.calculate_decay_rate ⟨100, []⟩ = 0
    ∧ NarrativeDecayEngine.calculate_decay_rate ⟨80, [80]⟩ = 0 := by
  constructor
  · simp [NarrativeDecayEngine.calculate_decay_rate, NarrativeDecayEngine.sentiment_history]
  · norm_num [NarrativeDecayEngine.calculate_decay_rate, NarrativeDecayEngine.sentiment_history,
      NarrativeDecayEngine.current_sentiment, NarrativeDecayEngine.days_elapsed,
      pyRoundTo, pyRound, Int.fract]

/-- C1 (amended): calculate_decay_rate returns 0 (the number zero, not a
distinguishable sentinel) for every history with fewer than 2 points, and
round((s0 - current) / n, 4) with n the elapsed days for every history
with at least 2 points. -/
theorem calculate_decay_rate_spec (e : NarrativeDecayEngine) :
    (e.sentiment_history.length < 2 → e.calculate_decay_rate = 0) ∧
    (2 ≤ e.sentiment_history.length →
      e.calculate_decay_rate
        = pyRoundTo 4 ((e.s0 - e.current_sentiment) / (e.days_elapsed : ℚ))) := by
  constructor
  · intro h
    simp [NarrativeDecayEngine.calculate_decay_rate, h]
  · intro h
    have hmax : max e.days_elapsed 1 = e.days_elapsed := by
      have : 1 ≤ e.days_elapsed := by
        unfold NarrativeDecayEngine.days_elapsed
        omega
      omega
    rw [NarrativeDecayEngine.calculate_decay_rate, if_neg (by omega), hmax]

/-- C3: classify_status applies its four rules in strict priority order:
current sentiment below 20 yields EXHAUSTED whatever the correlation (in
particular sentiment 15 with correlation -0.9 is EXHAUSTED, not FAILED);
otherwise correlation below -0.5 yields FAILED; otherwise correlation above
0.7 with sentiment above 70 and more than 30 elapsed days yields VALIDATED;
otherwise ACTIVE (also whenever the correlation is not available). -/
theorem classify_status_spec (s : ℚ) (d : ℕ) (c : Option ℚ) :
    (s < 20 → NarrativeDecayEngine.classify_status s d c = .EXHAUSTED) ∧
    (¬ s < 20 → c = none → NarrativeDecayEngine.classify_status s d c = .ACTIVE) ∧
    (∀ x : ℚ, c = some x → ¬ s < 20 → x < -(1/2) →
      NarrativeDecayEngine.classify_status s d c = .FAILED) ∧
    (∀ x : ℚ, c = some x → ¬ s < 20 → ¬ x < -(1/2) → 7/10 < x ∧ 70 < s ∧ 30 < d →
      NarrativeDecayEngine.classify_status s d c = .VALIDATED) ∧
    (∀ x : ℚ, c = some x → ¬ s< 20 → ¬ x < -(1/2) → ¬ (7/10 < x ∧ 70 < s ∧ 30 < d) →
      NarrativeDecayEngine.classify_status s d c = .ACTIVE) ∧
    NarrativeDecayEngine.classify_status 15 d (some (-(9/10))) = .EXHAUSTED := by
  refine ⟨?_, ?_, ?_, ?_, ?_, ?_⟩
  · intro h
    simp [NarrativeDecayEngine.classify_status, h]
  · intro h hc
    subst hc
    simp [NarrativeDecayEngine.classify_status, h]
  · intro x hc h hx
    subst hc
    simp only [NarrativeDecayEngine.classify_status, if_neg h]
    rw [if_pos hx]
  · intro x hc h hx hv
    subst hc
    simp only [NarrativeDecayEngine.classify_status, if_neg h]
    rw [if_neg hx, if_pos hv]
  · intro x hc h hx hn
    subst hc
    simp only [NarrativeDecayEngine.classify_status, if_neg h]
    rw [if_neg hx, if_neg hn]
  · norm_num [NarrativeDecayEngine.classify_status]

/-- C2: for a history with at least 2 points, calculate_half_life returns
round(ln 2 * n / (-ln(current/s0)), 2) when s0 and the current sentiment
are positive and sentiment has strictly decayed; it returns the None
sentinel whenever s0 or the current sentiment is not positive or sentiment
is flat or rising; and any number it returns is non-negative (a float, so
never infinite in the model). -/
theorem calculate_half_life_spec (e : NarrativeDecayEngine)
    (hlen : 2 ≤ e.sentiment_history.length) :
    ((0 < e.s0 ∧ 0 < e.current_sentiment ∧ e.current_sentiment < e.s0) →
      e.calculate_half_life = some (pyRoundTo 2
        (Real.log 2 * (e.days_elapsed : ℝ)
          / (-Real.log ((e.current_sentiment : ℝ) / (e.s0 : ℝ)))))) ∧
    ((e.s0 ≤ 0 ∨ e.current_sentiment ≤ 0 ∨ e.s0 ≤ e.current_sentiment) →
      e.calculate_half_life = none) ∧
    (∀ t : ℝ, e.calculate_half_life = some t → 0 ≤ t) := by
  have hn : 1 ≤ e.days_elapsed := by
    unfold NarrativeDecayEngine.days_elapsed
    omega
  have hnR : (0:ℝ) < (e.days_elapsed : ℝ) := by exact_mod_cast hn
  refine ⟨?_, ?_, ?_⟩
  · rintro ⟨hs0, hc, hlt⟩
    have hsR : (0:ℝ) < (e.s0 : ℝ) := by exact_mod_cast hs0
    have hcR : (0:ℝ) < (e.current_sentiment : ℝ) := by exact_mod_cast hc
    have hltR : (e.current_sentiment : ℝ) < (e.s0 : ℝ) := by exact_mod_cast hlt
    have hlog : Real.log ((e.current_sentiment : ℝ) / (e.s0 : ℝ)) < 0 :=
      Real.log_neg (div_pos hcR hsR) ((div_lt_one hsR).mpr hltR)
    have hlam : 0 < -Real.log ((e.current_sentiment : ℝ) / (e.s0 : ℝ)) / (e.days_elapsed : ℝ) :=
      div_pos (by linarith) hnR
    unfold NarrativeDecayEngine.calculate_half_life
    rw [if_neg (by omega), if_neg (by push_neg; exact ⟨hc, hs0⟩), if_neg (not_le.mpr hlam)]
    rw [div_div_eq_mul_div]
  · intro hcase
    unfold NarrativeDecayEngine.calculate_half_life
    rw [if_neg (by omega)]
    by_cases hpos : e.current_sentiment ≤ 0 ∨ e.s0 ≤ 0
    · rw [if_pos hpos]
    · have hpos2 := hpos
      push_neg at hpos2
      have hge : e.s0 ≤ e.current_sentiment := by
        rcases hcase with h | h | h
        · exact absurd h (not_le.mpr hpos2.2)
        · exact absurd h (not_le.mpr hpos2.1)
        · exact h
      have hsR : (0:ℝ) < (e.s0 : ℝ) := by exact_mod_cast hpos2.2
      have hgeR : (e.s0 : ℝ) ≤ (e.current_sentiment : ℝ) := by exact_mod_cast hge
      have hlog : 0 ≤ Real.log ((e.current_sentiment : ℝ) / (e.s0 : ℝ)) :=
        Real.log_nonneg ((one_le_div hsR).mpr hgeR)
      have hlamle : -Real.log ((e.current_sentiment : ℝ) / (e.s0 : ℝ))
          / (e.days_elapsed : ℝ) ≤ 0 := by
        rw [neg_div]
        exact neg_nonpos.mpr (div_nonneg hlog hnR.le)
      rw [if_neg hpos, if_pos hlamle]
  · intro t ht
    unfold NarrativeDecayEngine.calculate_half_life at ht
    split_ifs at ht with h1 h2 h3
    injection ht with hEq
    subst hEq
    apply pyRoundTo_nonneg
    apply div_nonneg (Real.log_nonneg (by norm_num))
    exact le_of_lt (not_le.mp h3)

/-- C2 witness: the half-life formula instantiated on the concrete 2-point
history 100, 50. -/
theorem calculate_half_life_spec_witness :
    NarrativeDecayEngine.calculate_half_life ⟨100, [50]⟩
      = some (pyRoundTo 2 (Real.log 2 * 1 / (-Real.log ((50:ℝ) / 100)))) := by
  have h := (calculate_half_life_spec ⟨100, [50]⟩
      (by simp [NarrativeDecayEngine.sentiment_history])).1
    (by refine ⟨by norm_num, ?_, ?_⟩ <;>
      norm_num [NarrativeDecayEngine.current_sentiment, NarrativeDecayEngine.sentiment_history])
  simpa [NarrativeDecayEngine.current_sentiment, NarrativeDecayEngine.sentiment_history,
    NarrativeDecayEngine.days_elapsed] using h

/-- The Bayesian reliability score never exceeds 100: the prior mass keeps
the posterior mean below 1. -/
theorem calculate_reliability_bayesian_le_100 (calls : List Bool) :
    PatentFormulaCalculator.calculate_reliability_bayesian calls ≤ 100 := by
  unfold PatentFormulaCalculator.calculate_reliability_bayesian
  by_cases hc : calls = []
  · rw [if_pos hc]; norm_num
  · rw [if_neg hc]
    have hcount : (calls.count true : ℚ) ≤ (calls.length : ℚ) := by
      exact_mod_cast List.count_le_length true calls
    have hx : (2 + (calls.count true : ℚ))
        / (2 + 2 + (calls.count true : ℚ)
          + ((calls.length : ℚ) - (calls.count true : ℚ))) * 100 ≤ ((100:ℤ) : ℚ) := by
      have hden : (0:ℚ) < 2 + 2 + (calls.count true : ℚ)
          + ((calls.length : ℚ) - (calls.count true : ℚ)) := by
        have h0 : (0:ℚ) ≤ (calls.length : ℚ) := by positivity
        linarith
      have h1 : (2 + (calls.count true : ℚ))
          / (2 + 2 + (calls.count true : ℚ)
            + ((calls.length : ℚ) - (calls.count true : ℚ))) ≤ 1 := by
        rw [div_le_one hden]
        linarith
      have h2 : (0:ℚ) ≤ 2 + (calls.count true : ℚ) := by positivity
      push_cast
      nlinarith
    have := pyRoundTo_le_of_le (k := 2) hx
    simpa using this

/-- C4: the Bayesian reliability score is round((2 + s) / (4 + s + f) * 100, 2)
over s successes and f failures among the evaluated calls, is the neutral
50 when no call is evaluated, is exactly 60 for one success and no failure,
and never exceeds the simple accuracy rate when that rate is 100. -/
theorem calculate_reliability_bayesian_spec (calls : List Bool) :
    (calls = [] → PatentFormulaCalculator.calculate_reliability_bayesian calls = 50) ∧
    (calls ≠ [] → PatentFormulaCalculator.calculate_reliability_bayesian calls
      = pyRoundTo 2 ((2 + (calls.count true : ℚ))
          / (4 + (calls.count true : ℚ) + ((calls.length : ℚ) - (calls.count true : ℚ)))
          * 100)) ∧
    PatentFormulaCalculator.calculate_reliability_bayesian [true] = 60 ∧
    (PatentFormulaCalculator.calculate_analyst_accuracy calls = 100 →
      PatentFormulaCalculator.calculate_reliability_bayesian calls
        ≤ PatentFormulaCalculator.calculate_analyst_accuracy calls) := by
  refine ⟨?_, ?_, ?_, ?_⟩
  · intro h
    simp [PatentFormulaCalculator.calculate_reliability_bayesian, h]
  · intro h
    simp only [PatentFormulaCalculator.calculate_reliability_bayesian, if_neg h]
    ring_nf
  · unfold PatentFormulaCalculator.calculate_reliability_bayesian
    norm_num [List.count_cons, pyRoundTo, pyRound, Int.fract]
  · intro h
    rw [h]
    exact calculate_reliability_bayesian_le_100 calls

/-- C5: for every call the maturation job reaches, directional_correct is
set exactly when the stored sentiment and the 90-day percent price change
agree (BULLISH with change above +5, BEARISH with change below -5, NEUTRAL
with absolute change at most 5), and the written update always carries
outcome_status EVALUATED, even when directional_correct is false. -/
theorem evaluate_call_spec (sentiment : String) (price_at_publish price_90d_later : ℚ) :
    ((AnalystTracker.evaluate_call sentiment price_at_publish price_90d_later).directional_correct
        = true ↔
      ((sentiment = "BULLISH"
          ∧ 5 < AnalystTracker.price_change_pct price_at_publish price_90d_later) ∨
       (sentiment = "BEARISH"
          ∧ AnalystTracker.price_change_pct price_at_publish price_90d_later < -5) ∨
       (sentiment = "NEUTRAL"
          ∧ |AnalystTracker.price_change_pct price_at_publish price_90d_later| ≤ 5))) ∧
    (AnalystTracker.evaluate_call sentiment price_at_publish price_90d_later).outcome_status
      = "EVALUATED" := by
  constructor
  · unfold AnalystTracker.evaluate_call AnalystTracker.directional_correct
    dsimp only
    split_ifs with h1 h2 h3
    · simp [h1]
    · simp [h2]
    · simp [h3]
    · simp only [Bool.false_eq_true, false_iff]
      push_neg
      push_neg at h1 h2 h3
      exact ⟨h1, h2, h3⟩
  · rfl

/-- C6 counterexample: the scraper component does not compute the composite
of the spec.  Raising AAR from 0 to 100 moves the scraper composite by 30
points, while the spec formula moves by 25 points whatever fixed HDS and
coordination values are plugged in (they cancel in the difference), so no
reading of the scraper composite as the spec formula is possible. -/
theorem scraper_acs_not_spec_composite :
    Scraper.acs 100 0 - Scraper.acs 0 0
      ≠ spec_composite 100 0 0 0 - spec_composite 0 0 0 0 := by
  norm_num [Scraper.acs, spec_composite]

/-- C6 (amended): the composite in daily_calculations.update_analyst_scores
is the spec formula AAR x 0.25 + ARB x 0.15 + HDS x 0.10 +
(100 - coordination) x 0.05 + 50 x 0.45, with the fixed placeholder term
contributing the constant 22.5; but marketscholar_scraper
update_analyst_scores computes a different composite, AAR x 0.30 +
ARB x 0.20 + 50 x 0.50, which no fixed choice of HDS and coordination
values reconciles with the spec formula. -/
theorem composite_score_per_component (aar arb hds coord : ℚ) :
    PatentFormulaCalculator.acs aar arb hds coord = spec_composite aar arb hds coord ∧
    PatentFormulaCalculator.acs aar arb hds coord
      = aar * 0.25 + arb * 0.15 + hds * 0.10 + (100 - coord) * 0.05 + 22.5 ∧
    Scraper.acs aar arb = aar * 0.30 + arb * 0.20 + 25 ∧
    (∀ h c : ℚ, ¬ (Scraper.acs 100 arb = spec_composite 100 arb h c
        ∧ Scraper.acs 0 arb = spec_composite 0 arb h c)) := by
  refine ⟨rfl, ?_, ?_, ?_⟩
  · norm_num [PatentFormulaCalculator.acs]
  · norm_num [Scraper.acs]
  · rintro h c ⟨h1, h2⟩
    have h3 : Scraper.acs 100 arb - Scraper.acs 0 arb
        = spec_composite 100 arb h c - spec_composite 0 arb h c := by rw [h1, h2]
    norm_num [Scraper.acs, spec_composite] at h3

/-- C10: once the sub-scores lie in [0, 100], the composite of
daily_calculations.update_analyst_scores lies in [22.5, 77.5]; in
particular it never reaches 0 or 100, a consequence of the fixed
50 x 0.45 placeholder term and the weights summing to 0.55 elsewhere. -/
theorem acs_bounded (aar arb hds coord : ℚ)
    (h1 : 0 ≤ aar) (h2 : aar ≤ 100) (h3 : 0 ≤ arb) (h4 : arb ≤ 100)
    (h5 : 0 ≤ hds) (h6 : hds ≤ 100) (h7 : 0 ≤ coord) (h8 : coord ≤ 100) :
    45/2 ≤ PatentFormulaCalculator.acs aar arb hds coord ∧
    PatentFormulaCalculator.acs aar arb hds coord ≤ 155/2 ∧
    PatentFormulaCalculator.acs aar arb hds coord ≠ 0 ∧
    PatentFormulaCalculator.acs aar arb hds coord ≠ 100 := by
  have hlo : 45/2 ≤ PatentFormulaCalculator.acs aar arb hds coord := by
    unfold PatentFormulaCalculator.acs
    norm_num
    linarith
  have hhi : PatentFormulaCalculator.acs aar arb hds coord ≤ 155/2 := by
    unfold PatentFormulaCalculator.acs
    norm_num
    linarith
  refine ⟨hlo, hhi, ?_, ?_⟩
  · intro h0
    rw [h0] at hlo
    norm_num at hlo
  · intro h0
    rw [h0] at hhi
    norm_num at hhi

/-- C10 witness: the bounds instantiated at the all-neutral sub-scores. -/
theorem acs_bounded_witness :
    45/2 ≤ PatentFormulaCalculator.acs 50 50 50 50 ∧
    PatentFormulaCalculator.acs 50 50 50 50 ≤ 155/2 ∧
    PatentFormulaCalculator.acs 50 50 50 50 ≠ 0 ∧
    PatentFormulaCalculator.acs 50 50 50 50 ≠ 100 :=
  acs_bounded 50 50 50 50 (by norm_num) (by norm_num) (by norm_num) (by norm_num)
    (by norm_num) (by norm_num) (by norm_num) (by norm_num)

/-- C7: the hype discipline score is the neutral 50 for missing text, 0
whenever there is no numeric anchor whatever the hype count, and otherwise
min(100, floor(anchors / (hype + 1) * 20)), plus a 20-point bonus capped at
100 exactly when the anchors outnumber three times the hype words; the
result always lies in [0, 100]. -/
theorem calculate_hype_discipline_spec (a h : ℕ) :
    PatentFormulaCalculator.calculate_hype_discipline none = 50 ∧
    PatentFormulaCalculator.calculate_hype_discipline (some (0, h)) = 0 ∧
    (0 < a → ¬ h * 3 < a →
      PatentFormulaCalculator.calculate_hype_discipline (some (a, h))
        = min 100 (20 * a / (h + 1))) ∧
    (0 < a → h * 3 < a →
      PatentFormulaCalculator.calculate_hype_discipline (some (a, h))
        = min 100 (min 100 (20 * a / (h + 1)) + 20)) ∧
    PatentFormulaCalculator.calculate_hype_discipline (some (a, h)) ≤ 100 := by
  refine ⟨rfl, ?_, ?_, ?_, ?_⟩
  · simp [PatentFormulaCalculator.calculate_hype_discipline,
      PatentFormulaCalculator.hype_discipline_core]
  · intro ha hb
    simp only [PatentFormulaCalculator.calculate_hype_discipline,
      PatentFormulaCalculator.hype_discipline_core]
    rw [if_pos ha, if_neg hb]
  · intro ha hb
    simp only [PatentFormulaCalculator.calculate_hype_discipline,
      PatentFormulaCalculator.hype_discipline_core]
    rw [if_pos ha, if_pos hb]
  · simp only [PatentFormulaCalculator.calculate_hype_discipline,
      PatentFormulaCalculator.hype_discipline_core]
    split_ifs <;> omega

/-- The timing loop fires exactly when some 3 consecutive entries of the
list span fewer than 3600 seconds. -/
theorem three_within_hour_iff (l : List ℚ) :
    PatentFormulaCalculator.three_within_hour l = true ↔
      ∃ i, i + 2 < l.length ∧ l.getD (i+2) 0 - l.getD i 0 < 3600 := by
  induction l with
  | nil => simp [PatentFormulaCalculator.three_within_hour]
  | cons a t ih =>
    cases t with
    | nil => simp [PatentFormulaCalculator.three_within_hour]
    | cons b u =>
      cases u with
      | nil =>
        simp only [PatentFormulaCalculator.three_within_hour, List.length_cons,
          List.length_nil]
        constructor
        · intro hfalse
          exact absurd hfalse (by simp)
        · rintro ⟨i, hi, _⟩
          omega
      | cons c v =>
        rw [show PatentFormulaCalculator.three_within_hour (a :: b :: c :: v)
            = (decide (c - a < 3600) || PatentFormulaCalculator.three_within_hour (b :: c :: v))
          from rfl]
        rw [Bool.or_eq_true, decide_eq_true_eq, ih]
        constructor
        · rintro (hlt | ⟨i, hi, hd⟩)
          · exact ⟨0, by simp, by simpa using hlt⟩
          · refine ⟨i + 1, by simp at hi ⊢; omega, by simpa using hd⟩
        · rintro ⟨i, hi, hd⟩
          cases i with
          | zero => exact Or.inl (by simpa using hd)
          | succ j =>
            exact Or.inr ⟨j, by simp at hi ⊢; omega, by simpa using hd⟩

/-- The anonymous-majority test of the code, written over rationals, is the
natural-number comparison of the claim. -/
theorem half_le_iff (n a : ℕ) : ((n : ℚ) * (1/2) ≤ (a : ℚ)) ↔ n ≤ 2 * a := by
  constructor
  · intro h
    have h2 : (n:ℚ) ≤ 2 * (a:ℚ) := by linarith
    exact_mod_cast h2
  · intro h
    have h2 : (n:ℚ) ≤ ((2 * a : ℕ) : ℚ) := by exact_mod_cast h
    push_cast at h2
    linarith

/-- C8: the coordination score is 0 below 2 narrative-matching articles;
otherwise it is the capped sum of the binary 45-point timing bonus (some 3
consecutive sorted publish timestamps span under one hour), the binary
30-point phrasing bonus (maximum pairwise similarity above 0.7) and the
binary 20-point anonymity bonus (at least half the matching articles carry
no author); and 3 matching articles at t, t+20min, t+40min with maximum
pairwise similarity 0.75 and 1 of 3 anonymous score exactly 75. -/
theorem calculate_coordination_score_spec (sim : List Char → List Char → ℚ)
    (articles : List PatentFormulaCalculator.Article) (narrative_name : String) :
    ((articles.filter (PatentFormulaCalculator.matchesNarrative narrative_name)).length < 2 →
      PatentFormulaCalculator.calculate_coordination_score sim articles narrative_name = 0) ∧
    (2 ≤ (articles.filter (PatentFormulaCalculator.matchesNarrative narrative_name)).length →
      PatentFormulaCalculator.calculate_coordination_score sim articles narrative_name
        = min 100
          ((if PatentFormulaCalculator.three_within_hour (sortAsc
              ((articles.filter (PatentFormulaCalculator.matchesNarrative narrative_name)).map
                PatentFormulaCalculator.Article.published_at)) then 45 else 0)
          + (if 7/10 < PatentFormulaCalculator.max_pair_sim sim
              ((articles.filter (PatentFormulaCalculator.matchesNarrative narrative_name)).map
                (fun a => a.title ++ " " ++ a.content_summary)) then 30 else 0)
          + (if (articles.filter (PatentFormulaCalculator.matchesNarrative narrative_name)).length
              ≤ 2 * ((articles.filter (PatentFormulaCalculator.matchesNarrative narrative_name)).filter
                PatentFormulaCalculator.isAnonymous).length then 20 else 0))) ∧
    (∀ ts : List ℚ, PatentFormulaCalculator.three_within_hour ts = true ↔
      ∃ i, i + 2 < ts.length ∧ ts.getD (i+2) 0 - ts.getD i 0 < 3600) ∧
    PatentFormulaCalculator.calculate_coordination_score (fun _ _ => 3/4)
      [⟨"AI Chips rally", "x", 0, some "alice"⟩,
       ⟨"The ai chips story", "y", 1200, some "bob"⟩,
       ⟨"more on AI CHIPS now", "z", 2400, none⟩] "ai chips" = 75 := by
  refine ⟨?_, ?_, three_within_hour_iff, ?_⟩
  · intro h
    unfold PatentFormulaCalculator.calculate_coordination_score
    by_cases ha : articles.length < 2
    · rw [if_pos ha]
    · rw [if_neg ha]
      dsimp only
      rw [if_pos h]
  · intro h
    have ha : ¬ articles.length < 2 := by
      have := List.length_filter_le (PatentFormulaCalculator.matchesNarrative narrative_name)
        articles
      omega
    unfold PatentFormulaCalculator.calculate_coordination_score
    rw [if_neg ha]
    dsimp only
    rw [if_neg (not_lt.mpr h)]
    simp only [half_le_iff]
  · have hfilter : ([⟨"AI Chips rally", "x", 0, some "alice"⟩,
       ⟨"The ai chips story", "y", 1200, some "bob"⟩,
       ⟨"more on AI CHIPS now", "z", 2400, none⟩]
        : List PatentFormulaCalculator.Article).filter
          (PatentFormulaCalculator.matchesNarrative "ai chips")
      = [⟨"AI Chips rally", "x", 0, some "alice"⟩,
         ⟨"The ai chips story", "y", 1200, some "bob"⟩,
         ⟨"more on AI CHIPS now", "z", 2400, none⟩] := rfl
    unfold PatentFormulaCalculator.calculate_coordination_score
    rw [if_neg (by norm_num)]
    dsimp only
    rw [hfilter]
    have hsort : sortAsc (([⟨"AI Chips rally", "x", 0, some "alice"⟩,
         ⟨"The ai chips story", "y", 1200, some "bob"⟩,
         ⟨"more on AI CHIPS now", "z", 2400, none⟩]
          : List PatentFormulaCalculator.Article).map
            PatentFormulaCalculator.Article.published_at)
        = [0, 1200, 2400] := by
      norm_num [sortAsc, insertAsc]
    rw [if_neg (by norm_num), hsort]
    have htiming : PatentFormulaCalculator.three_within_hour [0, 1200, 2400] = true := by
      rw [three_within_hour_iff]
      exact ⟨0, by norm_num, by norm_num⟩
    rw [if_pos htiming]
    have hsim : (7/10 : ℚ) < PatentFormulaCalculator.max_pair_sim (fun _ _ => 3/4)
        (([⟨"AI Chips rally", "x", 0, some "alice"⟩,
           ⟨"The ai chips story", "y", 1200, some "bob"⟩,
           ⟨"more on AI CHIPS now", "z", 2400, none⟩]
            : List PatentFormulaCalculator.Article).map
              (fun a => a.title ++ " " ++ a.content_summary)) := by
      norm_num [PatentFormulaCalculator.max_pair_sim, max_def]
    rw [if_pos hsim]
    have hanon : ([⟨"AI Chips rally", "x", 0, some "alice"⟩,
         ⟨"The ai chips story", "y", 1200, some "bob"⟩,
         ⟨"more on AI CHIPS now", "z", 2400, none⟩]
          : List PatentFormulaCalculator.Article).filter PatentFormulaCalculator.isAnonymous
        = [⟨"more on AI CHIPS now", "z", 2400, none⟩] := rfl
    rw [if_neg (by rw [hanon]; norm_num)]
    rfl

/-- C9: the two half-life computations disagree.  On the sentiment history
100, 50, 1 the decay engine computes round(ln 2 / (ln 100 / 2), 2), a value
at most 0.5, while the scraper derives round(ln 2 / ln(200/101), 2), a
value at least 0.9, so the returned half-life numbers differ. -/
theorem half_life_formulas_disagree :
    ∃ x y : ℝ,
      NarrativeDecayEngine.calculate_half_life ⟨100, [50, 1]⟩ = some x ∧
      (Scraper.calculate_narrative_decay [100, 50, 1]).map Scraper.DecayResult.half_life
        = some (some y) ∧ x ≠ y := by
  have h100 : (0:ℝ) < Real.log 100 := Real.log_pos (by norm_num)
  have hlog1 : Real.log ((1:ℝ)/100) = -Real.log 100 := by
    rw [one_div, Real.log_inv]
  have hgt : (0:ℝ) < Real.log (200/101) := Real.log_pos (by norm_num)
  -- the engine value on this history
  have hengine : NarrativeDecayEngine.calculate_half_life ⟨100, [50, 1]⟩
      = some (pyRoundTo 2 (Real.log 2 * 2 / Real.log 100)) := by
    have h1 : NarrativeDecayEngine.sentiment_history ⟨100, [50, 1]⟩ = [100, 50, 1] := rfl
    have h2 : NarrativeDecayEngine.current_sentiment ⟨100, [50, 1]⟩ = 1 := rfl
    have h3 : NarrativeDecayEngine.days_elapsed ⟨100, [50, 1]⟩ = 2 := rfl
    have hlam : ¬ (-Real.log ((1:ℝ)/100) / (2:ℝ) ≤ 0) := by
      rw [hlog1, neg_neg]
      push_neg
      positivity
    unfold NarrativeDecayEngine.calculate_half_life
    rw [h1, h2, h3]
    norm_num
    refine ⟨by rw [hlog1]; linarith, ?_⟩
    rw [hlog1, neg_neg, div_div_eq_mul_div]
  -- the scraper value on the same history
  have hscraper : Scraper.calculate_narrative_decay [100, 50, 1]
      = some ⟨pyRoundTo 2 (99/2), some (pyRoundTo 2 (Real.log 2 / Real.log (200/101)))⟩ := by
    have k2 : ([100, 50, 1] : List ℚ).headD 0 = 100 := rfl
    have k3 : ([100, 50, 1] : List ℚ).getLastD 0 = 1 := rfl
    unfold Scraper.calculate_narrative_decay
    rw [k2, k3]
    norm_num
    rw [show ((101:ℝ)/200) = ((200:ℝ)/101)⁻¹ by norm_num, Real.log_inv]
    rw [show Real.log ((1:ℝ)/2) = -Real.log 2 by rw [one_div, Real.log_inv]]
    rw [neg_div_neg_eq]
  -- the engine value is at most one half
  have hA : Real.log 2 * 2 / Real.log 100 ≤ 1/2 := by
    rw [div_le_iff₀ h100]
    have h16 : Real.log 16 < Real.log 100 := Real.log_lt_log (by norm_num) (by norm_num)
    rw [show (16:ℝ) = 2^4 by norm_num, Real.log_pow] at h16
    push_cast at h16
    linarith
  have hx : pyRoundTo 2 (Real.log 2 * 2 / Real.log 100) ≤ 1/2 := by
    unfold pyRoundTo
    have hb : Real.log 2 * 2 / Real.log 100 * (10:ℝ)^2 ≤ ((50:ℤ):ℝ) := by
      push_cast
      nlinarith [hA]
    have h2 := pyRound_le_of_le_int hb
    rw [div_le_iff₀ (by norm_num : (0:ℝ) < (10:ℝ)^2)]
    calc ((pyRound (Real.log 2 * 2 / Real.log 100 * (10:ℝ)^2)):ℝ) ≤ ((50:ℤ):ℝ) := by
          exact_mod_cast h2
      _ = 1/2 * (10:ℝ)^2 := by norm_num
  -- the scraper value is at least nine tenths
  have hB : (9/10 : ℝ) ≤ Real.log 2 / Real.log (200/101) := by
    rw [le_div_iff₀ hgt]
    have hpow : ((200:ℝ)/101)^9 < 2^10 := by
      rw [div_pow, div_lt_iff₀ (by positivity)]
      norm_num
    have hlt : Real.log (((200:ℝ)/101)^9) < Real.log (2^10) :=
      Real.log_lt_log (by positivity) hpow
    rw [Real.log_pow, Real.log_pow] at hlt
    push_cast at hlt
    linarith
  have hy : (9/10 : ℝ) ≤ pyRoundTo 2 (Real.log 2 / Real.log (200/101)) := by
    unfold pyRoundTo
    have hb : ((90:ℤ):ℝ) ≤ Real.log 2 / Real.log (200/101) * (10:ℝ)^2 := by
      push_cast
      nlinarith [hB]
    have h2 := int_le_pyRound_of_le hb
    rw [le_div_iff₀ (by norm_num : (0:ℝ) < (10:ℝ)^2)]
    calc (9/10 : ℝ) * (10:ℝ)^2 = ((90:ℤ):ℝ) := by norm_num
      _ ≤ ((pyRound (Real.log 2 / Real.log (200/101) * (10:ℝ)^2)):ℝ) := by exact_mod_cast h2
  refine ⟨pyRoundTo 2 (Real.log 2 * 2 / Real.log 100),
    pyRoundTo 2 (Real.log 2 / Real.log (200/101)), hengine, ?_, ?_⟩
  · rw [hscraper]
    rfl
  · exact ne_of_lt (lt_of_le_of_lt hx (lt_of_lt_of_le (by norm_num) hy))
